import Mathlib

/-!
Verification of the core of the UPSKILL autonomy stack: the retry engine
(lib/retry.ts), the Chainlink price cache (lib/price.ts, inlined in
lib/index.ts), the tiered quota resolver (coordination/task-dispatcher.ts),
the pre-commit balance gate of claimFees (fee-claiming/claim-fees.ts), the
funding-step checks of purchaseCredits (self-funding/purchase-credits.ts)
and the daemon loop (autonomy-loop.ts), shallowly embedded as pure Lean
functions.  Asynchronous effects are made explicit: remote calls become
function arguments giving the response per attempt, timestamps become `Nat`
millisecond parameters, and module-level mutable state is threaded as an
explicit state value.
-/

deriving instance DecidableEq for Except

namespace Upskill

/-- Errors thrown by the TypeScript source.  `RecoverableError` is the only
error subclass lib/retry.ts defines; every other `throw` produces a plain
`Error` carrying a message. -/
inductive JsError where
  | plain (msg : String)
  | recoverable (msg : String)
deriving DecidableEq

/-- `isRecoverable` from lib/retry.ts: an `instanceof RecoverableError`
test, true exactly for the `RecoverableError` subclass. -/
def isRecoverable : JsError → Bool
  | .recoverable _ => true
  | .plain _ => false

/-- `RetryOptions` from lib/retry.ts.  The `onRetry` observer is optional;
since a JavaScript callback may itself throw, it is modelled as returning
`Except E Unit`. -/
structure RetryOptions (E : Type) where
  retries : Nat
  delayMs : Nat
  backoff : Nat
  maxDelayMs : Nat
  onRetry : Option (E → Nat → Except E Unit)

/-- The defaults destructured at the top of `withRetry` in lib/retry.ts:
`retries = 3`, `delayMs = 1000`, `backoff = 2`, `maxDelayMs = 30000`, no
observer. -/
def RetryOptions.defaults (E : Type) : RetryOptions E :=
  ⟨3, 1000, 2, 30000, none⟩

/-- Observable outcome of one `withRetry` run: the settled promise, how many
times the wrapped operation ran, each `onRetry(error, attempt)` invocation in
order, and each backoff sleep actually performed (its duration in ms). -/
structure RetryTrace (E T : Type) where
  result : Except E T
  fnCalls : Nat
  onRetryCalls : List (E × Nat)
  sleeps : List Nat
deriving DecidableEq

/-- The `for (let attempt = 1; attempt <= retries + 1; attempt++)` loop of
`withRetry` (lib/retry.ts lines 37 to 56).  The first argument counts the
attempts still allowed after the current one (`retriesLeft =
o.retries + 1 - attempt`), so the `attempt > retries` break fires exactly
when it is zero; the second argument is the 1-based loop counter `attempt`.
The wrapped operation `fn` is modelled as a function of the attempt number.
On failure of a non-final attempt the loop computes
`min(delayMs * backoff ^ (attempt - 1), maxDelayMs)`, invokes `onRetry` when
present, and sleeps.  The source wraps `onRetry` in no try/catch, so a
throwing observer propagates out of the loop, which the `.error e2` branch
reproduces (no further attempt, no sleep). -/
def withRetryLoop (fn : Nat → Except E T) (o : RetryOptions E) :
    Nat → Nat → RetryTrace E T
  | 0, attempt =>
    match fn attempt with
    | .ok v => ⟨.ok v, 1, [], []⟩
    | .error e => ⟨.error e, 1, [], []⟩
  | r + 1, attempt =>
    match fn attempt with
    | .ok v => ⟨.ok v, 1, [], []⟩
    | .error e =>
      let delay := min (o.delayMs * o.backoff ^ (attempt - 1)) o.maxDelayMs
      match o.onRetry with
      | none =>
        let t := withRetryLoop fn o r (attempt + 1)
        ⟨t.result, t.fnCalls + 1, t.onRetryCalls, delay :: t.sleeps⟩
      | some cb =>
        match cb e attempt with
        | .ok _ =>
          let t := withRetryLoop fn o r (attempt + 1)
          ⟨t.result, t.fnCalls + 1, (e, attempt) :: t.onRetryCalls,
            delay :: t.sleeps⟩
        | .error e2 => ⟨.error e2, 1, [(e, attempt)], []⟩

/-- `withRetry(fn, options)` from lib/retry.ts: run the attempt loop from
`attempt = 1` with the full retry budget `o.retries` still available. -/
def withRetry (fn : Nat → Except E T) (o : RetryOptions E) : RetryTrace E T :=
  withRetryLoop fn o o.retries 1

/-- One HTTP response as seen by `fetchWithRetry`: the fields of the Fetch
API response the source reads (`ok`, `status`, `text()`), plus the parsed
JSON body returned on success. -/
structure HttpResponse (T : Type) where
  ok : Bool
  status : Nat
  text : String
  jsonBody : T

/-- The async closure `fetchWithRetry` hands to `withRetry` (lib/retry.ts
lines 70 to 85): a non-ok response throws, with a `Server error <status>`
message when `status >= 500` and an `HTTP <status>` message otherwise, and
an ok response resolves to the JSON body.  Both throws are plain `Error`
values; the module defines no `NonRetryableError` and tags neither branch.
The fetch performed by attempt `n` is modelled as `responses n`. -/
def fetchAttempt (responses : Nat → HttpResponse T) (attempt : Nat) :
    Except String T :=
  let r := responses attempt
  if r.ok then .ok r.jsonBody
  else if 500 ≤ r.status then
    .error ("Server error " ++ toString r.status ++ ": " ++ r.text)
  else
    .error ("HTTP " ++ toString r.status ++ ": " ++ r.text)

/-- `fetchWithRetry(url, options, retryOptions)` from lib/retry.ts lines 65
to 93: wraps `fetchAttempt` in `withRetry`, spreading the caller options but
overriding `onRetry` with a wrapper that logs and then calls the caller
observer when one is present. -/
def fetchWithRetry (responses : Nat → HttpResponse T)
    (ro : RetryOptions String) : RetryTrace String T :=
  withRetry (fetchAttempt responses)
    ⟨ro.retries, ro.delayMs, ro.backoff, ro.maxDelayMs,
      some fun e n =>
        match ro.onRetry with
        | some cb => cb e n
        | none => .ok ()⟩

/-- One tier row of coordination/task-dispatcher.ts: `threshold` in raw
token units (the source builds it with `parseUnits(x, 18)`, a scale of
`10 ^ 18`), the daily task quota with `none` standing for the JavaScript
`Infinity` of the unlimited tier, and the display name. -/
structure Tier where
  threshold : Nat
  quota : Option Nat
  name : String
deriving DecidableEq

/-- `TIERS.FREE` of coordination/task-dispatcher.ts. -/
def TIERS_FREE : Tier := ⟨0, some 10, "Free"⟩

/-- `TIERS.BASIC`: `parseUnits("10000", 18)` tokens, 100 tasks per day. -/
def TIERS_BASIC : Tier := ⟨10000 * 10 ^ 18, some 100, "Basic (10K)"⟩

/-- `TIERS.PRO`: `parseUnits("100000", 18)` tokens, 1000 tasks per day. -/
def TIERS_PRO : Tier := ⟨100000 * 10 ^ 18, some 1000, "Pro (100K)"⟩

/-- `TIERS.UNLIMITED`: `parseUnits("1000000", 18)` tokens, unlimited. -/
def TIERS_UNLIMITED : Tier := ⟨1000000 * 10 ^ 18, none, "Unlimited (1M)"⟩

/-- The tier-determination chain of `getAgentInfo`
(coordination/task-dispatcher.ts lines 92 to 100): start from `TIERS.FREE`
and upgrade through the `balance >= threshold` tests, highest threshold
first. -/
def tierFor (balance : Nat) : Tier :=
  if TIERS_UNLIMITED.threshold ≤ balance then TIERS_UNLIMITED
  else if TIERS_PRO.threshold ≤ balance then TIERS_PRO
  else if TIERS_BASIC.threshold ≤ balance then TIERS_BASIC
  else TIERS_FREE

/-- Order on daily quotas, `none` standing for the unlimited (`Infinity`)
quota: every quota is at most unlimited, and finite quotas compare as
naturals. -/
def quotaLe : Option Nat → Option Nat → Bool
  | _, none => true
  | none, some _ => false
  | some m, some n => Nat.ble m n

/-- The pre-commit balance gate of `claimFees` (fee-claiming/claim-fees.ts
lines 106 to 123).  `balance`, `gasEstimate` and `gasPrice` are the three
chain reads (wei, gas units, wei per gas); the arithmetic is JavaScript
`bigint`, so the 20 percent buffer `(estimatedCost * 12n) / 10n`
floor-divides.  The thrown message reports the needed and available amounts
(the source renders them through viem formatEther; the raw wei numbers stand
in here). -/
def claimFeesGate (balance gasEstimate gasPrice : Nat) : Except String Unit :=
  let estimatedCost := gasEstimate * gasPrice
  let requiredBalance := estimatedCost * 12 / 10
  if balance < requiredBalance then
    .error ("Insufficient ETH for gas. Need ~" ++ toString requiredBalance ++
      " ETH, have " ++ toString balance ++ " ETH")
  else .ok ()

/-- `MAX_GAS_PRICE_GWEI`, re-exported by lib/index.ts; its value `50n`
appears in lib/schemas.test.ts. -/
def MAX_GAS_PRICE_GWEI : Nat := 50

/-- The two pre-commit checks of `purchaseCredits`
(self-funding/purchase-credits.ts lines 184 to 199), reached on a non-dry
run: an ETH balance below the estimated value throws a plain `Error` (its
JSDoc: `@throws Error if insufficient ETH balance`), while a gas price above
the ceiling throws a `RecoverableError`.  `balance` and `ethValue` are wei;
`gasPriceGwei` is the gas price already bigint-divided down to gwei. -/
def purchaseCreditsGate (balance ethValue gasPriceGwei : Nat) :
    Except JsError Unit :=
  if balance < ethValue then
    .error (.plain ("Insufficient ETH balance. Need ~" ++ toString ethValue ++
      " ETH but have " ++ toString balance ++ " ETH"))
  else if MAX_GAS_PRICE_GWEI < gasPriceGwei then
    .error (.recoverable ("Gas price too high: " ++ toString gasPriceGwei ++
      " gwei (max: " ++ toString MAX_GAS_PRICE_GWEI ++
      " gwei). Try again later."))
  else .ok ()

/-- Step 3 of `runAutonomyCycle` (autonomy-loop.ts lines 183 to 199): when
the available credits are below the minimum the purchase is attempted, and a
thrown error is swallowed (logged, purchase skipped, cycle continues) when
`isRecoverable` holds but rethrown otherwise, failing the cycle.
`purchaseResult` is the outcome of the `purchaseCredits` call; the credit
balances are JavaScript numbers, modelled as rationals. -/
def creditManagementStep (creditsAvailable minCredits : ℚ)
    (purchaseResult : Except JsError Unit) : Except JsError Unit :=
  if creditsAvailable < minCredits then
    match purchaseResult with
    | .ok _ => .ok ()
    | .error e => if isRecoverable e then .ok () else .error e
  else .ok ()

/-- How one `runAutonomyCycle` call ends, as seen by the daemon loop:
normal completion, or a thrown error. -/
inductive CycleOutcome where
  | success
  | failure (e : JsError)
deriving DecidableEq

/-- `MAX_CONSECUTIVE_FAILURES` from autonomy-loop.ts line 213. -/
def MAX_CONSECUTIVE_FAILURES : Nat := 5

/-- One iteration of the `while (running)` body of `runDaemon`
(autonomy-loop.ts lines 237 to 256) as a function of the cycle outcome: a
successful cycle resets `consecutiveFailures` to zero; a thrown error
increments it unconditionally (the `isRecoverable` test selects only the log
line); and a counter at `MAX_CONSECUTIVE_FAILURES` triggers
`process.exit(1)`, modelled as `none`. -/
def daemonStep (consecutiveFailures : Nat) : CycleOutcome → Option Nat
  | .success => some 0
  | .failure _ =>
    let cf := consecutiveFailures + 1
    if MAX_CONSECUTIVE_FAILURES ≤ cf then none else some cf

/-- How a `runDaemon` run ends: a `process.exit(1)` after the given number
of cycles, or a graceful stop (the `running` flag cleared) with the final
counter value. -/
inductive DaemonResult where
  | exitedNonZero (cyclesRun : Nat)
  | stopped (consecutiveFailures : Nat) (cyclesRun : Nat)
deriving DecidableEq

/-- `runDaemon` over a finite schedule of cycle outcomes, threading the
counter and the number of cycles run; the list ending models the `running`
flag being cleared by a termination signal. -/
def runDaemonFrom (cf ran : Nat) : List CycleOutcome → DaemonResult
  | [] => .stopped cf ran
  | o :: rest =>
    match daemonStep cf o with
    | none => .exitedNonZero (ran + 1)
    | some cf2 => runDaemonFrom cf2 (ran + 1) rest

/-- `runDaemon` from autonomy-loop.ts: the loop starts with
`consecutiveFailures = 0` and no cycles run. -/
def runDaemon (outcomes : List CycleOutcome) : DaemonResult :=
  runDaemonFrom 0 0 outcomes

/-- `PriceData` from lib/price.ts (inlined in lib/index.ts): the price (the
source stores a JavaScript number obtained from the raw oracle answer; here
the exact rational value), the oracle `updatedAt` timestamp in Unix seconds,
and the Chainlink round id. -/
structure PriceData where
  price : ℚ
  updatedAt : Nat
  roundId : Nat
deriving DecidableEq

/-- The module-level mutable state of lib/price.ts: `cachedPrice` and
`lastFetchTime` (ms). -/
structure PriceState where
  cachedPrice : Option PriceData
  lastFetchTime : Nat
deriving DecidableEq

/-- `CACHE_TTL_MS` from lib/price.ts: one minute. -/
def CACHE_TTL_MS : Nat := 60000

/-- `maxAgeMs` from `getEthPriceUsd`: one hour. -/
def PRICE_MAX_AGE_MS : Nat := 3600000

/-- One successful `latestRoundData` and `decimals` multicall pair: the
round id, the raw answer, the `updatedAt` timestamp in Unix seconds, and the
feed decimals. -/
structure OracleRound where
  roundId : Nat
  answer : Nat
  updatedAt : Nat
  decimals : Nat
deriving DecidableEq

/-- The fetch-and-validate path of `getEthPriceUsd` (lib/index.ts lines 154
to 197), taken on a cache miss.  `fetchResult` is `none` when either
multicall entry does not report success; `now` is the entry timestamp later
stored into `lastFetchTime`; `now2` is the second `Date.now()` taken for the
staleness check after the network round trip.  The stale-price message
rounds the age to minutes as `Math.round` does.  Only after the staleness
check passes are `cachedPrice` and `lastFetchTime` assigned. -/
def getEthPriceUsdFetch (s : PriceState) (now : Nat)
    (fetchResult : Option OracleRound) (now2 : Nat) :
    Except String PriceData × PriceState :=
  match fetchResult with
  | none => (.error "Failed to fetch ETH price from Chainlink oracle", s)
  | some r =>
    let updatedAtMs := r.updatedAt * 1000
    let ageMs := now2 - updatedAtMs
    if PRICE_MAX_AGE_MS < ageMs then
      (.error ("Chainlink price is stale: last updated " ++
        toString ((2 * ageMs + 60000) / 120000) ++ " minutes ago"), s)
    else
      let price : ℚ := (r.answer : ℚ) / (10 : ℚ) ^ r.decimals
      let newData : PriceData := ⟨price, r.updatedAt, r.roundId⟩
      (.ok newData, ⟨some newData, now⟩)

/-- `getEthPriceUsd` (lib/index.ts lines 146 to 198) over explicit state and
time.  A cached snapshot younger than the TTL is returned with no remote
call and no state change; otherwise the fetch path runs.  JavaScript number
subtraction of timestamps is modelled with truncated natural subtraction,
which agrees with the comparisons of the source on every branch.  Returns
the settled promise together with the module state after the call. -/
def getEthPriceUsd (s : PriceState) (now : Nat)
    (fetchResult : Option OracleRound) (now2 : Nat) :
    Except String PriceData × PriceState :=
  match s.cachedPrice with
  | some cached =>
    if now - s.lastFetchTime < CACHE_TTL_MS then (.ok cached, s)
    else getEthPriceUsdFetch s now fetchResult now2
  | none => getEthPriceUsdFetch s now fetchResult now2

/-- Invariant of the price-cache state: whatever snapshot is cached passed
the staleness check no earlier than the stored fetch time, so
`lastFetchTime` is at most one staleness window past the snapshot
timestamp. -/
def GoodPriceState (s : PriceState) : Prop :=
  ∀ p, s.cachedPrice = some p →
    s.lastFetchTime ≤ p.updatedAt * 1000 + PRICE_MAX_AGE_MS

/-- The attempt loop on an operation that fails every attempt, under an
observer that never throws (or no observer at all): every allowed attempt
runs, one more operation call than retries remained, and the loop settles on
the error of the final attempt. -/
theorem withRetryLoop_allFail (e : Nat → E) (o : RetryOptions E)
    (hcb : ∀ cb, o.onRetry = some cb → ∀ err n, cb err n = Except.ok ()) :
    ∀ r attempt,
      (withRetryLoop (T := T) (fun n => Except.error (e n)) o r attempt).result
          = Except.error (e (attempt + r)) ∧
      (withRetryLoop (T := T) (fun n => Except.error (e n)) o r attempt).fnCalls
          = r + 1 := by
  intro r
  induction r with
  | zero => intro attempt; simp [withRetryLoop]
  | succ r ih =>
    intro attempt
    have h := ih (attempt + 1)
    rcases ho : o.onRetry with _ | cb
    · simp only [withRetryLoop, ho]
      refine ⟨?_, by simpa using h.2⟩
      rw [show attempt + (r + 1) = attempt + 1 + r from by omega]
      simpa using h.1
    · simp only [withRetryLoop, ho, hcb cb ho]
      refine ⟨?_, by simpa using h.2⟩
      rw [show attempt + (r + 1) = attempt + 1 + r from by omega]
      simpa using h.1

/-- Claim C5: an operation that fails on every attempt, run through
`withRetry` configured with `N` retries (and no throwing observer), is
invoked exactly `N + 1` times, and `withRetry` fails with the error observed
on the last attempt. -/
theorem C5_retry_budget (E T : Type) (e : Nat → E) (o : RetryOptions E)
    (hcb : ∀ cb, o.onRetry = some cb → ∀ err n, cb err n = Except.ok ()) :
    (withRetry (T := T) (fun n => Except.error (e n)) o).fnCalls
        = o.retries + 1 ∧
    (withRetry (T := T) (fun n => Except.error (e n)) o).result
        = Except.error (e (o.retries + 1)) := by
  have h := withRetryLoop_allFail (T := T) e o hcb o.retries 1
  refine ⟨h.2, ?_⟩
  rw [show o.retries + 1 = 1 + o.retries from by omega]
  exact h.1

/-- Witness for C5: with the default options (3 retries) an always-failing
operation runs 4 times and the final error is reported. -/
theorem C5_retry_budget_witness :
    (withRetry (T := Nat) (fun _ => Except.error "always fails")
      (RetryOptions.defaults String)).fnCalls = 4 ∧
    (withRetry (T := Nat) (fun _ => Except.error "always fails")
      (RetryOptions.defaults String)).result
        = Except.error "always fails" := by
  have h := C5_retry_budget String Nat (fun _ => "always fails")
    (RetryOptions.defaults String)
    (by intro cb hcb err n; simp [RetryOptions.defaults] at hcb)
  exact ⟨h.1, h.2⟩

/-- Claim C1, settled against the code: the claim says a client-class (4xx)
response makes `fetchWithRetry` raise a NonRetryable failure at once with a
single underlying fetch.  The code disagrees: `withRetry` in lib/retry.ts
classifies nothing (no NonRetryable tag exists in the module), so with every
fetch answering HTTP 400 and the default options the fetch runs 4 times (one
initial attempt plus the full three-retry budget) before the plain
`HTTP 400` error is surfaced — contradicting the repository test
retry.test.ts (`should NOT retry on 4xx errors`, exactly one call expected)
and the `NonRetryableError` re-export in lib/index.ts. -/
theorem C1_fetchWithRetry_retries_client_errors :
    (fetchWithRetry (T := Nat) (fun _ => ⟨false, 400, "Bad Request", 0⟩)
      (RetryOptions.defaults String)).fnCalls = 4 ∧
    (fetchWithRetry (T := Nat) (fun _ => ⟨false, 400, "Bad Request", 0⟩)
      (RetryOptions.defaults String)).result
        = Except.error "HTTP 400: Bad Request" := by
  constructor <;> rfl

/-- Counterexample to claim C9: an observer that throws does abort the retry
loop.  With 3 retries configured, an operation failing on attempt 1 and an
`onRetry` that throws, `withRetry` runs the operation only once and settles
on the observer error instead of the operation error. -/
theorem C9_observer_throw_counterexample :
    (withRetry (T := Nat) (fun _ => Except.error "op failed")
      (⟨3, 1000, 2, 30000, some fun _ _ => Except.error "observer failed"⟩ :
        RetryOptions String)).fnCalls = 1 ∧
    (withRetry (T := Nat) (fun _ => Except.error "op failed")
      (⟨3, 1000, 2, 30000, some fun _ _ => Except.error "observer failed"⟩ :
        RetryOptions String)).result = Except.error "observer failed" := by
  constructor <;> rfl

/-- The attempt loop under an observer that never throws behaves like the
observer-free loop, and the observer runs exactly once per backoff sleep,
with consecutive attempt numbers starting at the first attempt. -/
theorem withRetryLoop_benign (fn : Nat → Except E T) (o : RetryOptions E)
    (cb : E → Nat → Except E Unit) (ho : o.onRetry = some cb)
    (hcb : ∀ err n, cb err n = Except.ok ()) :
    ∀ r attempt,
      (withRetryLoop fn o r attempt).result
          = (withRetryLoop fn
              ⟨o.retries, o.delayMs, o.backoff, o.maxDelayMs, none⟩
              r attempt).result ∧
      (withRetryLoop fn o r attempt).fnCalls
          = (withRetryLoop fn
              ⟨o.retries, o.delayMs, o.backoff, o.maxDelayMs, none⟩
              r attempt).fnCalls ∧
      (withRetryLoop fn o r attempt).onRetryCalls.map Prod.snd
          = List.range' attempt (withRetryLoop fn o r attempt).sleeps.length ∧
      (withRetryLoop fn o r attempt).onRetryCalls.length
          = (withRetryLoop fn o r attempt).sleeps.length := by
  intro r
  induction r with
  | zero =>
    intro attempt
    rcases hfn : fn attempt with e | v <;> simp [withRetryLoop, hfn]
  | succ r ih =>
    intro attempt
    rcases hfn : fn attempt with e | v
    · have h := ih (attempt + 1)
      simp only [withRetryLoop, hfn, ho, hcb e attempt]
      refine ⟨by simpa using h.1, by simpa using h.2.1, ?_,
        by simpa using h.2.2.2⟩
      simp only [List.map_cons, List.length_cons, List.range'_succ]
      simpa using congrArg (List.cons attempt) h.2.2.1
    · simp [withRetryLoop, hfn]

/-- Claim C9 as amended: `withRetry` invokes `onRetry(error, attempt)` once
before each backoff sleep (a benign observer leaves the result and the
attempt count unchanged, and the recorded attempt numbers are 1, 2, ... one
per sleep); however, a failure thrown inside `onRetry` aborts the retry
loop: no further attempt runs and `withRetry` fails with the observer error
instead of the operation error. -/
theorem C9_amended_observer :
    (∀ (E T : Type) (fn : Nat → Except E T) (o : RetryOptions E)
        (cb : E → Nat → Except E Unit), o.onRetry = some cb →
        (∀ err n, cb err n = Except.ok ()) →
        (withRetry fn o).result
            = (withRetry fn
                ⟨o.retries, o.delayMs, o.backoff, o.maxDelayMs, none⟩).result ∧
        (withRetry fn o).fnCalls
            = (withRetry fn
                ⟨o.retries, o.delayMs, o.backoff, o.maxDelayMs, none⟩).fnCalls ∧
        (withRetry fn o).onRetryCalls.map Prod.snd
            = List.range' 1 (withRetry fn o).sleeps.length ∧
        (withRetry fn o).onRetryCalls.length
            = (withRetry fn o).sleeps.length) ∧
    (∀ (E T : Type) (fn : Nat → Except E T) (o : RetryOptions E)
        (cb : E → Nat → Except E Unit) (e1 err : E), o.onRetry = some cb →
        fn 1 = Except.error e1 → 1 ≤ o.retries →
        cb e1 1 = Except.error err →
        (withRetry fn o).result = Except.error err ∧
        (withRetry fn o).fnCalls = 1) := by
  constructor
  · intro E T fn o cb ho hcb
    exact withRetryLoop_benign fn o cb ho hcb o.retries 1
  · intro E T fn o cb e1 err ho hfn hret hcb
    obtain ⟨r, hr⟩ : ∃ r, o.retries = r + 1 := ⟨o.retries - 1, by omega⟩
    unfold withRetry
    rw [hr]
    simp [withRetryLoop, hfn, ho, hcb]

/-- Witness for the amended C9: a benign observer on a 2-retry policy leaves
the trace of the observer-free policy intact, and a throwing observer aborts
after one operation call with the observer error. -/
theorem C9_amended_observer_witness :
    ((withRetry (T := Nat) (fun _ => Except.error "op failed")
        (⟨2, 1, 2, 30, some fun _ _ => Except.ok ()⟩ :
          RetryOptions String)).result
      = (withRetry (T := Nat) (fun _ => Except.error "op failed")
          (⟨2, 1, 2, 30, none⟩ : RetryOptions String)).result ∧
     (withRetry (T := Nat) (fun _ => Except.error "op failed")
        (⟨2, 1, 2, 30, some fun _ _ => Except.ok ()⟩ :
          RetryOptions String)).fnCalls
      = (withRetry (T := Nat) (fun _ => Except.error "op failed")
          (⟨2, 1, 2, 30, none⟩ : RetryOptions String)).fnCalls ∧
     (withRetry (T := Nat) (fun _ => Except.error "op failed")
        (⟨2, 1, 2, 30, some fun _ _ => Except.ok ()⟩ :
          RetryOptions String)).onRetryCalls.map Prod.snd
      = List.range' 1 ((withRetry (T := Nat) (fun _ => Except.error "op failed")
          (⟨2, 1, 2, 30, some fun _ _ => Except.ok ()⟩ :
            RetryOptions String)).sleeps.length) ∧
     (withRetry (T := Nat) (fun _ => Except.error "op failed")
        (⟨2, 1, 2, 30, some fun _ _ => Except.ok ()⟩ :
          RetryOptions String)).onRetryCalls.length
      = (withRetry (T := Nat) (fun _ => Except.error "op failed")
          (⟨2, 1, 2, 30, some fun _ _ => Except.ok ()⟩ :
            RetryOptions String)).sleeps.length) ∧
    ((withRetry (T := Nat) (fun _ => Except.error "op failed")
        (⟨2, 1, 2, 30, some fun _ _ => Except.error "observer boom"⟩ :
          RetryOptions String)).result = Except.error "observer boom" ∧
     (withRetry (T := Nat) (fun _ => Except.error "op failed")
        (⟨2, 1, 2, 30, some fun _ _ => Except.error "observer boom"⟩ :
          RetryOptions String)).fnCalls = 1) := by
  constructor
  · exact C9_amended_observer.1 String Nat _ _ _ rfl (fun _ _ => rfl)
  · exact C9_amended_observer.2 String Nat _ _ _ "op failed" "observer boom"
      rfl rfl (by decide) rfl

/-- Counterexample to claim C3: a Recoverable cycle failure does count
toward the shutdown budget.  Five consecutive cycles each throwing a
`RecoverableError` drive the daemon to `process.exit(1)` after the fifth,
although the claim says such failures leave the counter alone. -/
theorem C3_recoverable_counts_counterexample :
    runDaemon (List.replicate 5
        (CycleOutcome.failure (JsError.recoverable "gas price too high")))
      = DaemonResult.exitedNonZero 5 := by
  rfl

/-- Claim C3 as amended: every cycle-level exception increments
`consecutiveFailures`, whether or not it is classified Recoverable (the
classification selects only the log line); a successful cycle resets the
counter to zero; and a failure that brings the counter to the configured
maximum of 5 makes the daemon exit non-zero at once. -/
theorem C3_amended_failure_budget :
    (∀ (cf : Nat) (e : JsError),
        daemonStep cf (CycleOutcome.failure e)
          = if MAX_CONSECUTIVE_FAILURES ≤ cf + 1 then none
            else some (cf + 1)) ∧
    (∀ cf : Nat, daemonStep cf CycleOutcome.success = some 0) ∧
    (∀ (cf ran : Nat) (e : JsError) (rest : List CycleOutcome),
        MAX_CONSECUTIVE_FAILURES ≤ cf + 1 →
        runDaemonFrom cf ran (CycleOutcome.failure e :: rest)
          = DaemonResult.exitedNonZero (ran + 1)) := by
  refine ⟨fun cf e => rfl, fun cf => rfl, fun cf ran e rest hcf => ?_⟩
  simp [runDaemonFrom, daemonStep, hcf]

/-- Witness for the amended C3: from a counter of 4, one more failing cycle
(recoverable or not) exits the daemon; a success resets; a failure from 0
counts to 1. -/
theorem C3_amended_failure_budget_witness :
    daemonStep 0 (CycleOutcome.failure (JsError.recoverable "r"))
        = (if MAX_CONSECUTIVE_FAILURES ≤ 0 + 1 then none else some (0 + 1)) ∧
    daemonStep 3 CycleOutcome.success = some 0 ∧
    runDaemonFrom 4 4 [CycleOutcome.failure (JsError.plain "boom")]
        = DaemonResult.exitedNonZero 5 := by
  refine ⟨C3_amended_failure_budget.1 0 (JsError.recoverable "r"),
    C3_amended_failure_budget.2.1 3, ?_⟩
  exact C3_amended_failure_budget.2.2 4 4 (JsError.plain "boom") []
    (by decide)

/-- Claim C7: tier resolution is total with inclusive lower bounds — every
balance resolves to one of the four tiers, a balance exactly at a tier
threshold resolves to that tier (in particular 10,000 tokens resolve to
Basic), and every balance strictly below the Basic threshold resolves to
Free. -/
theorem C7_tier_total_inclusive :
    (∀ b : Nat, tierFor b = TIERS_FREE ∨ tierFor b = TIERS_BASIC ∨
      tierFor b = TIERS_PRO ∨ tierFor b = TIERS_UNLIMITED) ∧
    tierFor TIERS_FREE.threshold = TIERS_FREE ∧
    tierFor TIERS_BASIC.threshold = TIERS_BASIC ∧
    tierFor TIERS_PRO.threshold = TIERS_PRO ∧
    tierFor TIERS_UNLIMITED.threshold = TIERS_UNLIMITED ∧
    tierFor (10000 * 10 ^ 18) = TIERS_BASIC ∧
    (∀ b : Nat, b < 10000 * 10 ^ 18 → tierFor b = TIERS_FREE) := by
  refine ⟨?_, by decide, by decide, by decide, by decide, by decide, ?_⟩
  · intro b
    unfold tierFor
    split_ifs <;> tauto
  · intro b hb
    unfold tierFor
    split_ifs with h1 h2 h3
    · exfalso
      simp only [TIERS_UNLIMITED] at h1
      omega
    · exfalso
      simp only [TIERS_PRO] at h2
      omega
    · exfalso
      simp only [TIERS_BASIC] at h3
      omega
    · rfl

/-- Witness for C7: balance 12345 resolves to some tier, and a balance of
9,999 tokens, strictly below the Basic threshold, resolves to Free. -/
theorem C7_tier_total_inclusive_witness :
    (tierFor 12345 = TIERS_FREE ∨ tierFor 12345 = TIERS_BASIC ∨
      tierFor 12345 = TIERS_PRO ∨ tierFor 12345 = TIERS_UNLIMITED) ∧
    tierFor (9999 * 10 ^ 18) = TIERS_FREE := by
  refine ⟨C7_tier_total_inclusive.1 12345, ?_⟩
  exact C7_tier_total_inclusive.2.2.2.2.2.2 (9999 * 10 ^ 18) (by norm_num)

/-- Claim C8: tier resolution is monotone in the balance — a larger balance
never resolves to a tier with a smaller minimum-holdings threshold or a
smaller daily quota. -/
theorem C8_tier_monotone :
    ∀ b1 b2 : Nat, b2 ≤ b1 →
      (tierFor b2).threshold ≤ (tierFor b1).threshold ∧
      quotaLe (tierFor b2).quota (tierFor b1).quota = true := by
  intro b1 b2 hb
  unfold tierFor
  split_ifs <;>
    first
      | decide
      | (exfalso
         simp only [TIERS_FREE, TIERS_BASIC, TIERS_PRO, TIERS_UNLIMITED] at *
         omega)

/-- Witness for C8: a balance of exactly the Basic threshold dominates a
balance of 5 in both threshold and quota. -/
theorem C8_tier_monotone_witness :
    (tierFor 5).threshold ≤ (tierFor (10000 * 10 ^ 18)).threshold ∧
    quotaLe (tierFor 5).quota (tierFor (10000 * 10 ^ 18)).quota = true :=
  C8_tier_monotone (10000 * 10 ^ 18) 5 (by norm_num)

/-- Counterexample to claim C4: the gate of `claimFees` does not reject
exactly when the available balance is below 1.2 times the estimated cost.
With a gas estimate of 9, a gas price of 1 and a balance of 10 wei, the
balance is below the real bound (10 < 10.8, i.e. 10 * 10 < 12 * 9), so the
claim demands a rejection, yet the bigint computation floors
`(9 * 12) / 10` to 10 and the gate accepts. -/
theorem C4_floor_division_counterexample :
    claimFeesGate 10 9 1 = Except.ok () ∧ 10 * 10 < 12 * (9 * 1) :=
  ⟨rfl, by norm_num⟩

/-- Claim C4 as amended: the gate rejects with the shortfall message exactly
when the available balance is below `(gasEstimate * gasPrice * 12) / 10`,
the 1.2-times bound computed with bigint floor division in wei; in
particular the illustrative cases of the spec behave as claimed —
available 1.0 ETH against an estimated cost of 0.9 ETH rejects, and against
0.5 ETH accepts. -/
theorem C4_amended_balance_gate :
    (∀ balance gasEstimate gasPrice : Nat,
      (∃ msg, claimFeesGate balance gasEstimate gasPrice
          = Except.error msg) ↔
        balance < gasEstimate * gasPrice * 12 / 10) ∧
    (∃ msg, claimFeesGate (10 ^ 18) (9 * 10 ^ 17) 1 = Except.error msg) ∧
    claimFeesGate (10 ^ 18) (5 * 10 ^ 17) 1 = Except.ok () := by
  refine ⟨?_, ?_, ?_⟩
  · intro b g p
    simp only [claimFeesGate]
    split_ifs with h <;> simp [h]
  · exact ⟨_, rfl⟩
  · rfl

/-- Counterexample to claim C6: a funding-step balance shortfall is not
Recoverable at the cycle level.  With 0 wei available against 1 wei needed
and credits below the minimum, `purchaseCredits` throws a plain `Error`, the
credit-management step rethrows it (the cycle fails instead of continuing),
and the daemon counts the failure toward shutdown (counter 0 becomes 1, not
0). -/
theorem C6_balance_shortfall_counterexample :
    purchaseCreditsGate 0 1 10
        = Except.error (JsError.plain
            "Insufficient ETH balance. Need ~1 ETH but have 0 ETH") ∧
    creditManagementStep 0 5 (purchaseCreditsGate 0 1 10)
        = Except.error (JsError.plain
            "Insufficient ETH balance. Need ~1 ETH but have 0 ETH") ∧
    daemonStep 0 (CycleOutcome.failure (JsError.plain
        "Insufficient ETH balance. Need ~1 ETH but have 0 ETH"))
      = some 1 := by
  refine ⟨rfl, ?_, rfl⟩
  simp only [creditManagementStep]
  rw [if_pos (by norm_num : (0 : ℚ) < 5)]
  rfl

/-- Claim C6 as amended: a funding balance shortfall throws a plain `Error`,
which the cycle-level catch rethrows, so the cycle fails and the failure
increments the daemon counter; only the gas-price-ceiling condition is a
`RecoverableError`, which the cycle-level catch swallows so the cycle
completes. -/
theorem C6_amended_classification :
    (∀ (balance ethValue gasPriceGwei : Nat) (credits minCredits : ℚ),
      balance < ethValue → credits < minCredits →
      ∃ msg,
        purchaseCreditsGate balance ethValue gasPriceGwei
            = Except.error (JsError.plain msg) ∧
        creditManagementStep credits minCredits
            (purchaseCreditsGate balance ethValue gasPriceGwei)
            = Except.error (JsError.plain msg) ∧
        ∀ cf : Nat,
          daemonStep cf (CycleOutcome.failure (JsError.plain msg))
            = if MAX_CONSECUTIVE_FAILURES ≤ cf + 1 then none
              else some (cf + 1)) ∧
    (∀ (balance ethValue gasPriceGwei : Nat) (credits minCredits : ℚ),
      ethValue ≤ balance → MAX_GAS_PRICE_GWEI < gasPriceGwei →
      ∃ msg,
        purchaseCreditsGate balance ethValue gasPriceGwei
            = Except.error (JsError.recoverable msg) ∧
        creditManagementStep credits minCredits
            (purchaseCreditsGate balance ethValue gasPriceGwei)
            = Except.ok ()) := by
  constructor
  · intro b ev g c mc hb hc
    have h1 : purchaseCreditsGate b ev g
        = Except.error (JsError.plain ("Insufficient ETH balance. Need ~" ++
            toString ev ++ " ETH but have " ++ toString b ++ " ETH")) := by
      simp only [purchaseCreditsGate]
      rw [if_pos hb]
    refine ⟨_, h1, ?_, fun cf => rfl⟩
    simp only [creditManagementStep, h1]
    rw [if_pos hc]
    rfl
  · intro b ev g c mc hb hg
    have h1 : purchaseCreditsGate b ev g
        = Except.error (JsError.recoverable ("Gas price too high: " ++
            toString g ++ " gwei (max: " ++ toString MAX_GAS_PRICE_GWEI ++
            " gwei). Try again later.")) := by
      simp only [purchaseCreditsGate]
      rw [if_neg (by omega), if_pos hg]
    refine ⟨_, h1, ?_⟩
    simp only [creditManagementStep, h1]
    split_ifs with hc hrec
    · rfl
    · exact absurd rfl hrec
    · rfl

/-- Witness for the amended C6: balance 0 against 1 wei needed with low
credits gives a plain error that fails the cycle and counts; balance 5
against 1 wei with gas at 60 gwei gives a recoverable error that the cycle
swallows. -/
theorem C6_amended_classification_witness :
    (∃ msg, purchaseCreditsGate 0 1 10 = Except.error (JsError.plain msg) ∧
      creditManagementStep 0 5 (purchaseCreditsGate 0 1 10)
          = Except.error (JsError.plain msg) ∧
      ∀ cf : Nat,
        daemonStep cf (CycleOutcome.failure (JsError.plain msg))
          = if MAX_CONSECUTIVE_FAILURES ≤ cf + 1 then none
            else some (cf + 1)) ∧
    (∃ msg, purchaseCreditsGate 5 1 60
          = Except.error (JsError.recoverable msg) ∧
      creditManagementStep 0 5 (purchaseCreditsGate 5 1 60)
          = Except.ok ()) :=
  ⟨C6_amended_classification.1 0 1 10 0 5 (by norm_num) (by norm_num),
    C6_amended_classification.2 5 1 60 0 5 (by norm_num) (by decide)⟩

/-- The fetch path of the price cache either fails and leaves the state
untouched, or succeeds with a snapshot that passed the staleness check at
`now2` and becomes, together with `now`, the whole new state. -/
theorem fetchPath_cases (s : PriceState) (now : Nat) (f : Option OracleRound)
    (now2 : Nat) :
    ((∃ e, (getEthPriceUsdFetch s now f now2).1 = Except.error e) ∧
      (getEthPriceUsdFetch s now f now2).2 = s) ∨
    (∃ p, (getEthPriceUsdFetch s now f now2).1 = Except.ok p ∧
      (getEthPriceUsdFetch s now f now2).2 = ⟨some p, now⟩ ∧
      now2 - p.updatedAt * 1000 ≤ PRICE_MAX_AGE_MS) := by
  rcases f with _ | r
  · exact Or.inl ⟨⟨_, rfl⟩, rfl⟩
  · simp only [getEthPriceUsdFetch]
    split_ifs with h
    · exact Or.inl ⟨⟨_, rfl⟩, rfl⟩
    · refine Or.inr ⟨_, rfl, rfl, ?_⟩
      show now2 - r.updatedAt * 1000 ≤ PRICE_MAX_AGE_MS
      omega

/-- A successful fetch-path call preserves the cache invariant, provided the
second timestamp is no earlier than the first. -/
theorem fetchPath_preserves (s : PriceState) (now : Nat)
    (f : Option OracleRound) (now2 : Nat) (hs : GoodPriceState s)
    (hnn : now ≤ now2) :
    GoodPriceState (getEthPriceUsdFetch s now f now2).2 := by
  rcases fetchPath_cases s now f now2 with ⟨⟨e, he⟩, hst⟩ | ⟨p, hp, hst, hage⟩
  · rw [hst]; exact hs
  · rw [hst]
    intro q hq
    obtain rfl : p = q := Option.some.inj hq
    have hgoal : now ≤ p.updatedAt * 1000 + PRICE_MAX_AGE_MS := by omega
    exact hgoal

/-- Claim C2, settled against the code: the staleness window is enforced
only at fetch time, not when a cached snapshot is served.  A snapshot whose
oracle timestamp is exactly one hour in the past is accepted at time
3600000, cached, and then served again from the cache at time 3659999 —
when it is already 3659999 ms old, beyond the one-hour window the claim
promises. -/
theorem C2_stale_cache_counterexample :
    (getEthPriceUsd ⟨none, 0⟩ 3600000 (some ⟨7, 2500, 0, 0⟩) 3600000).2
        = ⟨some ⟨2500, 0, 7⟩, 3600000⟩ ∧
    (getEthPriceUsd ⟨some ⟨2500, 0, 7⟩, 3600000⟩ 3659999 none 3659999).1
        = Except.ok ⟨2500, 0, 7⟩ ∧
    PRICE_MAX_AGE_MS < 3659999 - (0 : Nat) * 1000 := by
  refine ⟨?_, ?_, by norm_num [PRICE_MAX_AGE_MS]⟩
  · simp only [getEthPriceUsd, getEthPriceUsdFetch]
    norm_num [PRICE_MAX_AGE_MS]
  · simp only [getEthPriceUsd]
    norm_num [CACHE_TTL_MS]

/-- Claim C2 as amended: the call preserves the cache invariant; under that
invariant every snapshot the call returns is, at the moment of the call,
younger than the staleness window plus the cache TTL (one hour plus one
minute) — but only a freshly fetched snapshot is guaranteed to be at most
one hour old, at its validation instant. -/
theorem C2_amended_freshness :
    (∀ (s : PriceState) (now : Nat) (f : Option OracleRound) (now2 : Nat),
      GoodPriceState s → now ≤ now2 →
      GoodPriceState (getEthPriceUsd s now f now2).2) ∧
    (∀ (s : PriceState) (now : Nat) (f : Option OracleRound) (now2 : Nat)
        (p : PriceData),
      GoodPriceState s → now ≤ now2 →
      (getEthPriceUsd s now f now2).1 = Except.ok p →
      now - p.updatedAt * 1000 < PRICE_MAX_AGE_MS + CACHE_TTL_MS) ∧
    (∀ (s : PriceState) (now : Nat) (f : Option OracleRound) (now2 : Nat)
        (p : PriceData),
      (getEthPriceUsdFetch s now f now2).1 = Except.ok p →
      now2 - p.updatedAt * 1000 ≤ PRICE_MAX_AGE_MS) := by
  have hMAX : PRICE_MAX_AGE_MS = 3600000 := rfl
  have hTTL : CACHE_TTL_MS = 60000 := rfl
  refine ⟨?_, ?_, ?_⟩
  · intro s now f now2 hs hnn
    rcases hc : s.cachedPrice with _ | cached
    · simp only [getEthPriceUsd, hc]
      exact fetchPath_preserves s now f now2 hs hnn
    · simp only [getEthPriceUsd, hc]
      split_ifs with hf
      · exact hs
      · exact fetchPath_preserves s now f now2 hs hnn
  · intro s now f now2 p hs hnn hok
    rcases hc : s.cachedPrice with _ | cached
    · simp only [getEthPriceUsd, hc] at hok
      rcases fetchPath_cases s now f now2 with ⟨⟨e, he⟩, _⟩ | ⟨q, hq, _, hage⟩
      · rw [he] at hok; exact Except.noConfusion hok
      · rw [hq] at hok
        injection hok with h
        subst h
        omega
    · simp only [getEthPriceUsd, hc] at hok
      split_ifs at hok with hf
      · injection hok with h
        subst h
        have hlft := hs cached hc
        omega
      · rcases fetchPath_cases s now f now2 with ⟨⟨e, he⟩, _⟩ | ⟨q, hq, _, hage⟩
        · rw [he] at hok; exact Except.noConfusion hok
        · rw [hq] at hok
          injection hok with h
          subst h
          omega
  · intro s now f now2 p hok
    rcases fetchPath_cases s now f now2 with ⟨⟨e, he⟩, _⟩ | ⟨q, hq, _, hage⟩
    · rw [he] at hok; exact Except.noConfusion hok
    · rw [hq] at hok
      simp only [Except.ok.injEq] at hok
      subst hok
      exact hage

/-- Witness for the amended C2: the invariant survives a failed call on the
empty state; a freshly cached snapshot served at time 5 is within the
combined bound; and a fetch validated at the one-hour mark is within the
window. -/
theorem C2_amended_freshness_witness :
    GoodPriceState (getEthPriceUsd ⟨none, 0⟩ 5 none 5).2 ∧
    (5 : Nat) - (⟨2500, 0, 7⟩ : PriceData).updatedAt * 1000
        < PRICE_MAX_AGE_MS + CACHE_TTL_MS ∧
    (3600000 : Nat) - (⟨2500, 0, 7⟩ : PriceData).updatedAt * 1000
        ≤ PRICE_MAX_AGE_MS := by
  have hs0 : GoodPriceState ⟨none, 0⟩ := by
    intro p hp; exact Option.noConfusion hp
  have hs1 : GoodPriceState ⟨some ⟨2500, 0, 7⟩, 0⟩ := by
    intro p hp
    injection hp with h
    subst h
    exact Nat.zero_le _
  refine ⟨C2_amended_freshness.1 ⟨none, 0⟩ 5 none 5 hs0 (le_refl 5), ?_, ?_⟩
  · exact C2_amended_freshness.2.1 ⟨some ⟨2500, 0, 7⟩, 0⟩ 5 none 5
      ⟨2500, 0, 7⟩ hs1 (le_refl 5) rfl
  · refine C2_amended_freshness.2.2 ⟨none, 0⟩ 0 (some ⟨7, 2500, 0, 0⟩)
      3600000 ⟨2500, 0, 7⟩ ?_
    simp only [getEthPriceUsdFetch]
    norm_num [PRICE_MAX_AGE_MS]

/-- The fetch path is atomic: a failure leaves the module state exactly as
it was, and a success replaces it wholesale with the returned snapshot and
the entry timestamp. -/
theorem fetchPath_atomic (s : PriceState) (now : Nat) (f : Option OracleRound)
    (now2 : Nat) :
    (∀ e, (getEthPriceUsdFetch s now f now2).1 = Except.error e →
      (getEthPriceUsdFetch s now f now2).2 = s) ∧
    (∀ p, (getEthPriceUsdFetch s now f now2).1 = Except.ok p →
      (getEthPriceUsdFetch s now f now2).2 = ⟨some p, now⟩) := by
  rcases fetchPath_cases s now f now2 with ⟨⟨e, he⟩, hst⟩ | ⟨p, hp, hst, _⟩
  · constructor
    · intro e2 _; exact hst
    · intro p hpk; rw [he] at hpk; exact Except.noConfusion hpk
  · constructor
    · intro e2 he2; rw [hp] at he2; exact Except.noConfusion he2
    · intro q hq
      rw [hp] at hq
      injection hq with h
      subst h
      exact hst

/-- Claim C10: the price cache is atomic on error — when `getEthPriceUsd`
fails (multicall failure or stale data), `cachedPrice` and `lastFetchTime`
are left exactly as they were, and on success the state is either untouched
(cache hit) or replaced wholesale by the returned snapshot with the fetch
timestamp. -/
theorem C10_cache_atomic_on_error :
    ∀ (s : PriceState) (now : Nat) (f : Option OracleRound) (now2 : Nat),
      (∀ e, (getEthPriceUsd s now f now2).1 = Except.error e →
        (getEthPriceUsd s now f now2).2 = s) ∧
      (∀ p, (getEthPriceUsd s now f now2).1 = Except.ok p →
        (getEthPriceUsd s now f now2).2 = s ∨
        (getEthPriceUsd s now f now2).2 = ⟨some p, now⟩) := by
  intro s now f now2
  rcases hc : s.cachedPrice with _ | cached
  · simp only [getEthPriceUsd, hc]
    exact ⟨(fetchPath_atomic s now f now2).1,
      fun p hp => Or.inr ((fetchPath_atomic s now f now2).2 p hp)⟩
  · simp only [getEthPriceUsd, hc]
    split_ifs with hf
    · constructor
      · intro e he; exact he.elim
      · intro p _; exact Or.inl rfl
    · exact ⟨(fetchPath_atomic s now f now2).1,
        fun p hp => Or.inr ((fetchPath_atomic s now f now2).2 p hp)⟩

/-- Witness for C10: a failed multicall on the empty cache state reports the
fetch error and leaves the state unchanged. -/
theorem C10_cache_atomic_on_error_witness :
    (getEthPriceUsd ⟨none, 123⟩ 5 none 5).1
        = Except.error "Failed to fetch ETH price from Chainlink oracle" ∧
    (getEthPriceUsd ⟨none, 123⟩ 5 none 5).2 = ⟨none, 123⟩ :=
  ⟨rfl, (C10_cache_atomic_on_error ⟨none, 123⟩ 5 none 5).1 _ rfl⟩

end Upskill
